import Mathlib

/-!
Verification of the devbox snapshot/AMI lifecycle state machine
(src/devbox/lifecycle/snapshots.py) against its specification.

The two DynamoDB tables are modelled as lists of records; attribute
presence is modelled with Option fields.  Every AWS side effect a handler
performs is recorded, in order, in a list of actions, and responses of
AWS calls a handler branches on are supplied by an environment record.
Python truthiness on strings (None and the empty string are falsy) is
modelled explicitly.
-/

namespace Devbox

/-- Python truthiness of an optional string: None and the empty string are
falsy. -/
def optTruthy : Option String → Bool
  | none => false
  | some s => s != ""

/-- One row of the meta table (key: project + volumeId), as written by
create_snapshots. -/
structure MetaItem where
  project : String
  volumeId : String
  instanceId : String := ""
  deviceName : String := ""
  snapshotId : String := ""
  State : String := ""
deriving Repr, DecidableEq

/-- One row of the main table (key: project).  Non-key attributes may be
absent, which Option models. -/
structure MainItem where
  project : String
  VolumeCount : Option Nat := none
  Status : Option String := none
  AMI : Option String := none
  RootDeviceName : Option String := none
  Architecture : Option String := none
  VirtualizationType : Option String := none
  LastInstanceType : Option String := none
  LastKeyPair : Option String := none
  Username : Option String := none
deriving Repr, DecidableEq

/-- main_table.get_item by project key: first row with this key. -/
def mainGet (t : List MainItem) (p : String) : Option MainItem :=
  t.find? (fun m => m.project == p)

/-- main_table.put_item: overwrite the row with this key, or append. -/
def mainPut (t : List MainItem) (item : MainItem) : List MainItem :=
  if t.any (fun m => m.project == item.project) then
    t.map (fun m => if m.project == item.project then item else m)
  else t ++ [item]

/-- main_table.update_item setting only Status (DynamoDB upserts when the
key is absent). -/
def mainUpdateStatus (t : List MainItem) (p s : String) : List MainItem :=
  if t.any (fun m => m.project == p) then
    t.map (fun m => if m.project == p then { m with Status := some s } else m)
  else t ++ [{ project := p, Status := some s }]

/-- main_table.update_item setting AMI and Status together. -/
def mainUpdateAmiStatus (t : List MainItem) (p a s : String) : List MainItem :=
  if t.any (fun m => m.project == p) then
    t.map (fun m =>
      if m.project == p then { m with AMI := some a, Status := some s } else m)
  else t ++ [{ project := p, AMI := some a, Status := some s }]

/-- main_table.scan with filter Attr AMI equals the given id. -/
def mainScanByAmi (t : List MainItem) (ami : String) : List MainItem :=
  t.filter (fun m => m.AMI == some ami)

/-- meta_table.put_item: overwrite the row with this key, or append. -/
def metaPut (t : List MetaItem) (r : MetaItem) : List MetaItem :=
  if t.any (fun x => x.project == r.project && x.volumeId == r.volumeId) then
    t.map (fun x =>
      if x.project == r.project && x.volumeId == r.volumeId then r else x)
  else t ++ [r]

/-- meta_table.update_item setting only State (upsert on absent key). -/
def metaUpdateState (t : List MetaItem) (p v s : String) : List MetaItem :=
  if t.any (fun x => x.project == p && x.volumeId == v) then
    t.map (fun x =>
      if x.project == p && x.volumeId == v then { x with State := s } else x)
  else t ++ [{ project := p, volumeId := v, State := s }]

/-- meta_table.query on the SnapshotIndex secondary index. -/
def metaQueryBySnapshot (t : List MetaItem) (sid : String) : List MetaItem :=
  t.filter (fun r => r.snapshotId == sid)

/-- meta_table.query by project partition key. -/
def metaQueryByProject (t : List MetaItem) (p : String) : List MetaItem :=
  t.filter (fun r => r.project == p)

/-- meta_table.scan with filter Attr volumeId equals the given id. -/
def metaScanByVolume (t : List MetaItem) (v : String) : List MetaItem :=
  t.filter (fun r => r.volumeId == v)

/-- meta_table.delete_item by full key. -/
def metaDelete (t : List MetaItem) (p v : String) : List MetaItem :=
  t.filter (fun r => !(r.project == p && r.volumeId == v))

/-- SnapshotConfig dataclass. -/
structure SnapshotConfig where
  managed_by_tag : String := "devbox-lambda"
  cleanup_max_attempts : Nat := 12
  cleanup_wait_seconds : Nat := 5
deriving Repr, DecidableEq

/-- Event detail for create_snapshots (instance state change). -/
structure ShutdownDetail where
  instanceId : Option String := none
  state : Option String := none
deriving Repr, DecidableEq

/-- Event detail for create_image (snapshot state change); snapshotId holds
the ARN-like snapshot_id field. -/
structure SnapshotDetail where
  snapshotId : Option String := none
  result : Option String := none
deriving Repr, DecidableEq

/-- Event detail for mark_ready (AMI state change). -/
structure AmiDetail where
  ImageId : Option String := none
  State : Option String := none
deriving Repr, DecidableEq

/-- Event detail for delete_volume (volume state change). -/
structure VolumeDetail where
  volumeId : Option String := none
  state : Option String := none
deriving Repr, DecidableEq

/-- One attachment entry of a volume, as returned by the EC2 resource. -/
structure Attachment where
  InstanceId : Option String := none
  Device : String := ""
deriving Repr, DecidableEq

/-- An attached volume; newSnapId is the id EC2 assigns to the snapshot
create_snapshot returns for it. -/
structure VolumeInfo where
  id : String := ""
  attachments : List Attachment := []
  newSnapId : String := ""
deriving Repr, DecidableEq

/-- The attributes of an instance that create_snapshots reads. -/
structure InstanceInfo where
  tags : List (String × String) := []
  imageId : String := ""
  rootDeviceName : String := ""
  architecture : String := ""
  virtualizationType : String := ""
  instanceType : String := ""
  keyName : String := ""
  volumes : List VolumeInfo := []
deriving Repr, DecidableEq

/-- devbox.utils.get_project_tag: value of the first tag whose key is
Project, or the empty string. -/
def get_project_tag (tags : List (String × String)) : String :=
  match tags.find? (fun t => t.1 == "Project") with
  | some t => t.2
  | none => ""

/-- One image description returned by describe_images. -/
structure ImageDesc where
  ImageId : String := ""
  Architecture : Option String := none
  VirtualizationType : Option String := none
  Tags : List (String × String) := []
deriving Repr, DecidableEq

/-- The Ebs part of a block device mapping read from an existing image. -/
structure EbsInfo where
  SnapshotId : Option String := none
deriving Repr, DecidableEq

/-- A block device mapping read from an existing image. -/
structure BlockMapping where
  DeviceName : String := ""
  Ebs : Option EbsInfo := none
deriving Repr, DecidableEq

/-- describe_snapshots response fields that make_mapping reads. -/
structure SnapInfo where
  VolumeSize : Nat := 0
  VolumeType : Option String := none
deriving Repr, DecidableEq

/-- The Ebs part of a block device mapping assembled for register_image. -/
structure EbsSpec where
  SnapshotId : String
  VolumeSize : Nat
  VolumeType : String
  DeleteOnTermination : Bool := true
deriving Repr, DecidableEq

/-- A block device mapping assembled for register_image. -/
structure MappingSpec where
  DeviceName : String
  Ebs : EbsSpec
deriving Repr, DecidableEq

/-- The keyword arguments create_image passes to register_image.
VirtualizationType and Architecture are none exactly when the argument is
omitted from the call. -/
structure RegisterImageArgs where
  Name : String
  BlockDeviceMappings : List MappingSpec
  RootDeviceName : String
  TagSpecs : List (String × String)
  VirtualizationType : Option String := none
  Architecture : Option String := none
deriving Repr, DecidableEq

/-- Errors a handler can raise.  clientError carries the botocore error
code; valueError and timeoutError carry the message. -/
inductive Err where
  | valueError (msg : String)
  | clientError (code : String)
  | timeoutError (msg : String)
  | keyError (key : String)
  | indexError
deriving Repr, DecidableEq

/-- External side effects a handler performs, in order. -/
inductive Action where
  | putMain (item : MainItem)
  | createSnapshot (volumeId snapshotId descr : String)
  | tagSnapshot (snapshotId : String) (tags : List (String × String))
  | putMeta (item : MetaItem)
  | updateMetaState (project volumeId newState : String)
  | updateMainAmiStatus (project ami status : String)
  | updateMainStatus (project status : String)
  | deleteMeta (project volumeId : String)
  | registerImage (args : RegisterImageArgs)
  | cleanupAmi (ami : String)
  | deregisterImage (ami : String)
  | deleteSnapshot (snapshotId : String)
  | deleteVolumeCall (volumeId : String)
deriving Repr, DecidableEq

/-- Result of one handler invocation: side effects in order, the two
tables afterwards, and the raised error if any. -/
structure HResult where
  actions : List Action
  main : List MainItem
  meta : List MetaItem
  err : Option Err := none
deriving Repr, DecidableEq

/-- Environment of create_snapshots: the instance the event references and
whether the read of the existing project record raises. -/
structure CsEnv where
  instances : String → InstanceInfo
  mainReadFails : Bool := false

/-- The per-volume loop of create_snapshots: create and tag a snapshot,
find the attachment for this instance (raising ValueError when absent),
then write the PENDING meta row. -/
def snapLoop (project instanceId : String) (vols : List VolumeInfo)
    (acc : List Action) (meta : List MetaItem) :
    List Action × List MetaItem × Option Err :=
  match vols with
  | [] => (acc, meta, none)
  | vol :: rest =>
    let snapId := vol.newSnapId
    let acts := acc ++
      [Action.createSnapshot vol.id snapId (project ++ "-" ++ vol.id),
       Action.tagSnapshot snapId [("Project", project), ("VolumeID", vol.id)]]
    match vol.attachments.find? (fun a => a.InstanceId == some instanceId) with
    | none =>
      (acts, meta,
       some (Err.valueError
         ("Volume " ++ vol.id ++ " missing attachment for instance "
           ++ instanceId)))
    | some att =>
      let row : MetaItem :=
        { project := project, volumeId := vol.id, instanceId := instanceId,
          deviceName := att.Device, snapshotId := snapId, State := "PENDING" }
      snapLoop project instanceId rest (acts ++ [Action.putMeta row])
        (metaPut meta row)

/-- create_snapshots handler: on a shutting-down event, overwrite the
project record (preserving Username) and snapshot every attached volume. -/
def create_snapshots (ev : ShutdownDetail) (env : CsEnv)
    (main : List MainItem) (meta : List MetaItem) : HResult :=
  if ev.state != some "shutting-down" then ⟨[], main, meta, none⟩
  else if !(optTruthy ev.instanceId) then ⟨[], main, meta, none⟩
  else
    let instanceId := ev.instanceId.getD ""
    let inst := env.instances instanceId
    let project := get_project_tag inst.tags
    if project == "" then ⟨[], main, meta, none⟩
    else
      let vols := inst.volumes
      if vols.length == 0 then ⟨[], main, meta, none⟩
      else
        let username :=
          if env.mainReadFails then ""
          else
            match mainGet main project with
            | some item => item.Username.getD ""
            | none => ""
        let rec0 : MainItem :=
          { project := project,
            VolumeCount := some vols.length,
            Status := some "SNAPSHOTTING",
            AMI := some inst.imageId,
            RootDeviceName := some inst.rootDeviceName,
            Architecture := some inst.architecture,
            VirtualizationType := some inst.virtualizationType,
            LastInstanceType := some inst.instanceType,
            LastKeyPair := some inst.keyName,
            Username := some username }
        let main1 := mainPut main rec0
        let res := snapLoop project instanceId vols [] meta
        ⟨Action.putMain rec0 :: res.1, main1, res.2.1, res.2.2⟩

/-- Environment of cleanup_ami_and_snapshots: the block device mappings of
the image and the response of the k-th describe_images poll. -/
structure CleanupEnv where
  blockMappings : List BlockMapping := []
  describeAttempt : Nat → Except Err (List ImageDesc) := fun _ => .ok []

/-- The polling loop at the end of cleanup_ami_and_snapshots, attempt k of
n remaining; the describe call is not guarded, so its errors propagate. -/
def cleanupPoll (describe : Nat → Except Err (List ImageDesc))
    (amiId : String) : Nat → Nat → Option Err
  | _, 0 => some (Err.timeoutError
      ("Timed out waiting for AMI '" ++ amiId ++ "' to deregister"))
  | k, n + 1 =>
    match describe k with
    | .error e => some e
    | .ok imgs => if imgs.isEmpty then none else cleanupPoll describe amiId (k + 1) n

/-- cleanup_ami_and_snapshots helper: collect backing snapshot ids,
deregister the AMI, best-effort delete each snapshot, then poll until the
AMI is gone or attempts run out. -/
def cleanup_ami_and_snapshots (amiId : String) (env : CleanupEnv)
    (cfg : SnapshotConfig) : List Action × Option Err :=
  let snapshotIds := env.blockMappings.filterMap (fun m =>
    match m.Ebs with
    | some e =>
      match e.SnapshotId with
      | some s => if s == "" then none else some s
      | none => none
    | none => none)
  let acts := Action.deregisterImage amiId ::
    snapshotIds.map Action.deleteSnapshot
  (acts, cleanupPoll env.describeAttempt amiId 0 cfg.cleanup_max_attempts)

/-- Characters of the segment after the last slash (the whole string when
it has no slash), mirroring split on slash then taking the last element. -/
def lastSegAux : List Char → List Char → List Char
  | [], cur => cur
  | c :: cs, cur =>
    if c = '/' then lastSegAux cs [] else lastSegAux cs (cur ++ [c])

/-- Snapshot id extraction in create_image: the trailing slash-delimited
segment of the snapshot_id field. -/
def snapIdOf (ev : SnapshotDetail) : String :=
  String.mk (lastSegAux (ev.snapshotId.getD "").toList [])

/-- Value of a key in a Python dict built by comprehension over a tag
list: the last pair with this key wins. -/
def lookupTag (tags : List (String × String)) (k : String) : Option String :=
  ((tags.filter (fun t => t.1 == k)).getLast?).map (fun t => t.2)

/-- Environment of create_image: live AWS responses it branches on. -/
structure CiEnv where
  describeSnapshot : String → SnapInfo := fun _ => {}
  describeImages : String → Except Err (List ImageDesc) := fun _ => .ok []
  cleanupEnv : CleanupEnv := {}
  newAmiId : String := ""

/-- make_mapping inside create_image: one block device mapping per meta
row, volume size and type queried live from the snapshot. -/
def make_mapping (env : CiEnv) (item : MetaItem) : MappingSpec :=
  let info := env.describeSnapshot item.snapshotId
  { DeviceName := item.deviceName,
    Ebs := { SnapshotId := item.snapshotId, VolumeSize := info.VolumeSize,
             VolumeType := info.VolumeType.getD "gp3",
             DeleteOnTermination := true } }

/-- Outcome of the prior-AMI block in create_image. -/
inductive OldAmiStep where
  | abort
  | failed (acts : List Action) (e : Err)
  | proceed (acts : List Action) (virt arch : Option String)
deriving Repr

/-- The prior-AMI block of create_image: describe the stored AMI (a
describe ClientError or an empty response aborts the registration), backfill
missing virtualization type and architecture from its description, and
clean it up when its ManagedBy tag matches the configured tag. -/
def oldAmiStep (env : CiEnv) (cfg : SnapshotConfig) (oldAmi : Option String)
    (virt arch : Option String) : OldAmiStep :=
  if !(optTruthy oldAmi) then .proceed [] virt arch
  else
    let a := oldAmi.getD ""
    match env.describeImages a with
    | .error _ => .abort
    | .ok [] => .abort
    | .ok (img :: _) =>
      let virt1 := if optTruthy virt then virt else img.VirtualizationType
      let arch1 := if optTruthy arch then arch else img.Architecture
      if lookupTag img.Tags "ManagedBy" == some cfg.managed_by_tag then
        let res := cleanup_ami_and_snapshots a env.cleanupEnv cfg
        match res.2 with
        | some e => .failed (Action.cleanupAmi a :: res.1) e
        | none => .proceed (Action.cleanupAmi a :: res.1) virt1 arch1
      else .proceed [] virt1 arch1

/-- create_image handler: on snapshot success, mark the meta row
COMPLETED, and once every volume of the project is COMPLETED, replace the
prior self-managed AMI and register the new one. -/
def create_image (ev : SnapshotDetail) (env : CiEnv) (main : List MainItem)
    (meta : List MetaItem) (cfg : SnapshotConfig) : HResult :=
  if ev.result != some "succeeded" then ⟨[], main, meta, none⟩
  else if !(optTruthy ev.snapshotId) then ⟨[], main, meta, none⟩
  else
    let snapId := snapIdOf ev
    match metaQueryBySnapshot meta snapId with
    | [] => ⟨[], main, meta, none⟩
    | r :: rest =>
      if rest.length != 0 then
        ⟨[], main, meta,
         some (Err.valueError
           ("Expected exactly one meta entry for snapshot " ++ snapId
             ++ ", found " ++ toString (rest.length + 1)))⟩
      else
        let project := r.project
        let meta1 := metaUpdateState meta project r.volumeId "COMPLETED"
        let acts1 := [Action.updateMetaState project r.volumeId "COMPLETED"]
        match mainGet main project with
        | none => ⟨acts1, main, meta1, none⟩
        | some m =>
          match m.VolumeCount with
          | none => ⟨acts1, main, meta1, some (Err.keyError "VolumeCount")⟩
          | some required =>
            let all_meta := metaQueryByProject meta1 project
            let done :=
              (all_meta.filter (fun x => x.State == "COMPLETED")).length
            if done < required then ⟨acts1, main, meta1, none⟩
            else
              let mappings := all_meta.map (make_mapping env)
              match all_meta with
              | [] => ⟨acts1, main, meta1, some Err.indexError⟩
              | first :: _ =>
                let root_m :=
                  (all_meta.find?
                    (fun x => some x.deviceName == m.RootDeviceName)).getD first
                match oldAmiStep env cfg m.AMI m.VirtualizationType
                    m.Architecture with
                | .abort => ⟨acts1, main, meta1, none⟩
                | .failed cActs e => ⟨acts1 ++ cActs, main, meta1, some e⟩
                | .proceed cActs virt arch =>
                  let args : RegisterImageArgs :=
                    { Name := project ++ "-ami",
                      BlockDeviceMappings := mappings,
                      RootDeviceName := root_m.deviceName,
                      TagSpecs := [("Project", project),
                                   ("ManagedBy", cfg.managed_by_tag)],
                      VirtualizationType :=
                        if optTruthy virt then virt else none,
                      Architecture :=
                        if optTruthy arch then arch else none }
                  let newAmi := env.newAmiId
                  ⟨acts1 ++ cActs ++
                    [Action.registerImage args,
                     Action.updateMainAmiStatus project newAmi "IMAGING"],
                   mainUpdateAmiStatus main project newAmi "IMAGING",
                   meta1, none⟩

/-- The bulk meta-row deletion loop of mark_ready. -/
def deleteRows (p : String) (rows : List MetaItem) (t : List MetaItem) :
    List MetaItem :=
  match rows with
  | [] => t
  | r :: rest => deleteRows p rest (metaDelete t p r.volumeId)

/-- mark_ready handler: on AMI availability, find the project whose AMI
matches, delete its meta rows, and set Status READY. -/
def mark_ready (ev : AmiDetail) (main : List MainItem)
    (meta : List MetaItem) : HResult :=
  if ev.State != some "available" then ⟨[], main, meta, none⟩
  else if !(optTruthy ev.ImageId) then ⟨[], main, meta, none⟩
  else
    let amiId := ev.ImageId.getD ""
    match mainScanByAmi main amiId with
    | [] => ⟨[], main, meta, none⟩
    | item :: _ =>
      let project := item.project
      let rows := metaQueryByProject meta project
      let delActs := rows.map (fun r => Action.deleteMeta project r.volumeId)
      let meta1 := deleteRows project rows meta
      ⟨delActs ++ [Action.updateMainStatus project "READY"],
       mainUpdateStatus main project "READY", meta1, none⟩

/-- Environment of delete_volume: the ClientError code raised by the
delete_volume AWS call, if it fails (the handler logs and swallows it). -/
structure DvEnv where
  deleteVolumeError : Option String := none
deriving Repr, DecidableEq

/-- delete_volume handler: on volume availability, delete it when its
snapshot is COMPLETED (AWS errors logged, not raised), otherwise mark the
owning project ERROR. -/
def delete_volume (ev : VolumeDetail) (env : DvEnv) (main : List MainItem)
    (meta : List MetaItem) : HResult :=
  if ev.state != some "available" then ⟨[], main, meta, none⟩
  else if !(optTruthy ev.volumeId) then ⟨[], main, meta, none⟩
  else
    let volId := ev.volumeId.getD ""
    match metaScanByVolume meta volId with
    | [] => ⟨[], main, meta, none⟩
    | r :: _ =>
      if r.State == "COMPLETED" then
        match env.deleteVolumeError with
        | some _ => ⟨[Action.deleteVolumeCall volId], main, meta, none⟩
        | none => ⟨[Action.deleteVolumeCall volId], main, meta, none⟩
      else
        ⟨[Action.updateMainStatus r.project "ERROR"],
         mainUpdateStatus main r.project "ERROR", meta, none⟩

/-! Concrete fixtures used by counterexamples and witnesses. -/

/-- Cleanup environment reproducing the repository test in which every
describe_images poll raises ClientError InvalidAMIID.NotFound. -/
def c2Env : CleanupEnv :=
  { blockMappings := [],
    describeAttempt := fun _ =>
      .error (Err.clientError "InvalidAMIID.NotFound") }

/-- C2: in the polling loop of cleanup_ami_and_snapshots, a describe call
failing with an AMI-not-found ClientError is NOT treated as success: the
loop has no handler around describe_images, so the error propagates to
the caller instead of the function returning normally, contradicting the
claim and the repository test that injects exactly this error. -/
theorem c2_describe_not_found_propagates :
    (cleanup_ami_and_snapshots "ami-gone" c2Env
        { cleanup_max_attempts := 1, cleanup_wait_seconds := 0 }).2
      = some (Err.clientError "InvalidAMIID.NotFound") := by
  rfl

/-- Instance fixture for the C3 counterexample: one attached volume, with
a base image id ami-base. -/
def c3Inst : InstanceInfo :=
  { tags := [("Project", "proj-c3")],
    imageId := "ami-base",
    rootDeviceName := "/dev/sda1",
    architecture := "x86_64",
    virtualizationType := "hvm",
    instanceType := "t3.micro",
    keyName := "kp",
    volumes := [{ id := "vol-1",
                  attachments :=
                    [{ InstanceId := some "i-c3", Device := "/dev/sda1" }],
                  newSnapId := "snap-c3" }] }

/-- Environment for the C3 counterexample. -/
def c3Env : CsEnv := { instances := fun _ => c3Inst }

/-- C3 counterexample: starting from an empty main table (so no IMAGING
transition has ever completed), create_snapshots already writes a project
record whose AMI attribute is present, set to the image id the instance
was launched from. -/
theorem c3_counterexample :
    ((create_snapshots
        { instanceId := some "i-c3", state := some "shutting-down" }
        c3Env [] []).main.map (fun m => (m.Status, m.AMI)))
      = [(some "SNAPSHOTTING", some "ami-base")] := by
  decide

/-- Meta fixture for the C4 counterexample. -/
def c4Meta : MetaItem :=
  { project := "p4", volumeId := "vol-4", instanceId := "i-4",
    deviceName := "/dev/sda1", snapshotId := "snap-4", State := "PENDING" }

/-- Main fixture for the C4 counterexample: Architecture and
VirtualizationType are absent from the project record. -/
def c4Main : MainItem :=
  { project := "p4", VolumeCount := some 1, Status := some "SNAPSHOTTING",
    AMI := some "ami-old4", RootDeviceName := some "/dev/sda1" }

/-- Prior-AMI description for the C4 counterexample: carries architecture
and virtualization type, and no ManagedBy tag. -/
def c4Img : ImageDesc :=
  { ImageId := "ami-old4", Architecture := some "x86_64",
    VirtualizationType := some "hvm", Tags := [] }

/-- Environment for the C4 counterexample. -/
def c4Env : CiEnv :=
  { describeSnapshot := fun _ => { VolumeSize := 8, VolumeType := some "gp3" },
    describeImages := fun _ => .ok [c4Img],
    cleanupEnv := {},
    newAmiId := "ami-new4" }

/-- Event for the C4 counterexample. -/
def c4Ev : SnapshotDetail :=
  { snapshotId := some "arn:aws:ec2:us-east-1::snapshot/snap-4",
    result := some "succeeded" }

/-- The register_image calls recorded in a handler result. -/
def registeredArgs (r : HResult) : List RegisterImageArgs :=
  r.actions.filterMap (fun a =>
    match a with
    | Action.registerImage args => some args
    | _ => none)

/-- C4 counterexample: the project record lacks Architecture and
VirtualizationType, yet the register_image call does not omit them: both
are backfilled from the prior AMI description instead. -/
theorem c4_counterexample :
    c4Main.Architecture = none ∧ c4Main.VirtualizationType = none ∧
    (registeredArgs (create_image c4Ev c4Env [c4Main] [c4Meta] {})).map
        (fun a => (a.Architecture, a.VirtualizationType))
      = [(some "x86_64", some "hvm")] := by
  decide

/-- C7: when a volume-available event finds a meta row for the volume, a
COMPLETED row leads to exactly one EBS delete call, with no error raised
even when AWS fails the deletion (env is universally quantified) and no
change to the main table; a PENDING row leads to the owning project being
marked ERROR with no delete call. -/
theorem c7_volume_reclaim (ev : VolumeDetail) (env : DvEnv)
    (main : List MainItem) (meta : List MetaItem) (r : MetaItem)
    (rest : List MetaItem)
    (hstate : ev.state = some "available")
    (hvol : optTruthy ev.volumeId = true)
    (hscan : metaScanByVolume meta (ev.volumeId.getD "") = r :: rest) :
    (r.State = "COMPLETED" →
      delete_volume ev env main meta =
        ⟨[Action.deleteVolumeCall (ev.volumeId.getD "")], main, meta, none⟩) ∧
    (r.State = "PENDING" →
      delete_volume ev env main meta =
        ⟨[Action.updateMainStatus r.project "ERROR"],
         mainUpdateStatus main r.project "ERROR", meta, none⟩) := by
  unfold delete_volume
  rw [hstate]
  simp only [hvol, hscan]
  constructor
  · intro hC
    simp only [hC]
    cases env.deleteVolumeError <;> simp
  · intro hP
    simp [hP]

/-- Witness for c7_volume_reclaim at a concrete COMPLETED row with an
injected AWS deletion failure. -/
theorem c7_volume_reclaim_witness :
    (delete_volume { volumeId := some "vol-7", state := some "available" }
        { deleteVolumeError := some "VolumeInUse" } []
        [{ project := "p7", volumeId := "vol-7", State := "COMPLETED" }] =
      ⟨[Action.deleteVolumeCall "vol-7"], [],
       [{ project := "p7", volumeId := "vol-7", State := "COMPLETED" }],
       none⟩) := by
  exact (c7_volume_reclaim
    { volumeId := some "vol-7", state := some "available" }
    { deleteVolumeError := some "VolumeInUse" } []
    [{ project := "p7", volumeId := "vol-7", State := "COMPLETED" }]
    { project := "p7", volumeId := "vol-7", State := "COMPLETED" } []
    rfl (by decide) (by decide)).1 rfl

/-- C6: when a snapshot-success event is handled, an empty secondary-index
lookup makes create_image return with no side effect and no error, while
a lookup returning two or more meta rows makes it raise a ValueError
before performing any write. -/
theorem c6_meta_lookup_cardinality (ev : SnapshotDetail) (env : CiEnv)
    (main : List MainItem) (meta : List MetaItem) (cfg : SnapshotConfig)
    (hres : ev.result = some "succeeded")
    (harn : optTruthy ev.snapshotId = true) :
    (metaQueryBySnapshot meta (snapIdOf ev) = [] →
      create_image ev env main meta cfg = ⟨[], main, meta, none⟩) ∧
    (2 ≤ (metaQueryBySnapshot meta (snapIdOf ev)).length →
      ∃ msg, create_image ev env main meta cfg =
        ⟨[], main, meta, some (Err.valueError msg)⟩) := by
  constructor
  · intro h
    unfold create_image
    rw [hres]
    simp only [harn, h]
    simp
  · intro h
    unfold create_image
    rw [hres]
    simp only [harn]
    cases hq : metaQueryBySnapshot meta (snapIdOf ev) with
    | nil => rw [hq] at h; simp at h
    | cons r rest =>
      rw [hq] at h
      cases rest with
      | nil => simp at h
      | cons r2 rest2 =>
        refine ⟨"Expected exactly one meta entry for snapshot " ++ snapIdOf ev
          ++ ", found " ++ toString ((r2 :: rest2).length + 1), ?_⟩
        simp

/-- Witness for c6_meta_lookup_cardinality at a concrete event. -/
theorem c6_meta_lookup_cardinality_witness :
    create_image
        { snapshotId := some "snap-6", result := some "succeeded" }
        {} [] [] {} = ⟨[], [], [], none⟩ := by
  exact (c6_meta_lookup_cardinality
    { snapshotId := some "snap-6", result := some "succeeded" }
    {} [] [] {} rfl (by decide)).1 (by decide)

/-- C1: on a snapshot-success event whose meta lookup finds exactly one
row and whose project record exists, when the count of COMPLETED meta rows
for the project (counted after the triggering row is marked COMPLETED) is
below VolumeCount, create_image performs exactly the one meta State write
and nothing else: no AMI registration, no main-table change, no error. -/
theorem c1_completion_gating (ev : SnapshotDetail) (env : CiEnv)
    (main : List MainItem) (meta : List MetaItem) (cfg : SnapshotConfig)
    (r : MetaItem) (m : MainItem) (required : Nat)
    (hres : ev.result = some "succeeded")
    (harn : optTruthy ev.snapshotId = true)
    (hq : metaQueryBySnapshot meta (snapIdOf ev) = [r])
    (hm : mainGet main r.project = some m)
    (hvc : m.VolumeCount = some required)
    (hdone : ((metaQueryByProject
        (metaUpdateState meta r.project r.volumeId "COMPLETED")
        r.project).filter (fun x => x.State == "COMPLETED")).length
        < required) :
    create_image ev env main meta cfg =
      ⟨[Action.updateMetaState r.project r.volumeId "COMPLETED"], main,
       metaUpdateState meta r.project r.volumeId "COMPLETED", none⟩ := by
  unfold create_image
  rw [hres]
  simp only [harn, hq, hm, hvc, hdone]
  simp

/-- Fixture event for the c1 witness. -/
def c1Ev : SnapshotDetail :=
  { snapshotId := some "arn:aws:ec2:us-east-1::snapshot/snap-1",
    result := some "succeeded" }

/-- Fixture meta table for the c1 witness: two PENDING rows of one
project. -/
def c1MetaT : List MetaItem :=
  [{ project := "p1", volumeId := "v1", instanceId := "i-1",
     deviceName := "/dev/sda1", snapshotId := "snap-1", State := "PENDING" },
   { project := "p1", volumeId := "v2", instanceId := "i-1",
     deviceName := "/dev/sdb", snapshotId := "snap-2", State := "PENDING" }]

/-- Fixture main table for the c1 witness: VolumeCount 2. -/
def c1MainT : List MainItem :=
  [{ project := "p1", VolumeCount := some 2,
     Status := some "SNAPSHOTTING" }]

/-- Witness for c1_completion_gating: with one of two snapshots done, the
handler only marks the row COMPLETED. -/
theorem c1_completion_gating_witness :
    create_image c1Ev {} c1MainT c1MetaT {} =
      ⟨[Action.updateMetaState "p1" "v1" "COMPLETED"], c1MainT,
       metaUpdateState c1MetaT "p1" "v1" "COMPLETED", none⟩ :=
  c1_completion_gating c1Ev {} c1MainT c1MetaT {}
    { project := "p1", volumeId := "v1", instanceId := "i-1",
      deviceName := "/dev/sda1", snapshotId := "snap-1", State := "PENDING" }
    { project := "p1", VolumeCount := some 2,
      Status := some "SNAPSHOTTING" } 2
    rfl (by decide) (by decide) (by decide) rfl (by decide)

/-- The Username value create_snapshots computes before overwriting the
project record: the pre-existing records Username when the read succeeds
and the record exists, the empty string otherwise. -/
def preservedUsername (env : CsEnv) (main : List MainItem)
    (project : String) : String :=
  if env.mainReadFails then ""
  else
    match mainGet main project with
    | some item => item.Username.getD ""
    | none => ""

/-- Shared helper: the shape of the project record create_snapshots puts
when its trigger conditions hold. -/
theorem create_snapshots_put_spec (ev : ShutdownDetail) (env : CsEnv)
    (main : List MainItem) (meta : List MetaItem)
    (hstate : ev.state = some "shutting-down")
    (hid : optTruthy ev.instanceId = true)
    (hproj :
      get_project_tag (env.instances (ev.instanceId.getD "")).tags ≠ "")
    (hvols : (env.instances (ev.instanceId.getD "")).volumes ≠ []) :
    ∃ rec0,
      (create_snapshots ev env main meta).actions.head? =
          some (Action.putMain rec0) ∧
      (create_snapshots ev env main meta).main = mainPut main rec0 ∧
      rec0.project =
        get_project_tag (env.instances (ev.instanceId.getD "")).tags ∧
      rec0.Username = some (preservedUsername env main
        (get_project_tag (env.instances (ev.instanceId.getD "")).tags)) ∧
      rec0.VolumeCount =
        some (env.instances (ev.instanceId.getD "")).volumes.length ∧
      rec0.Status = some "SNAPSHOTTING" ∧
      rec0.AMI = some (env.instances (ev.instanceId.getD "")).imageId ∧
      rec0.RootDeviceName =
        some (env.instances (ev.instanceId.getD "")).rootDeviceName ∧
      rec0.Architecture =
        some (env.instances (ev.instanceId.getD "")).architecture ∧
      rec0.VirtualizationType =
        some (env.instances (ev.instanceId.getD "")).virtualizationType ∧
      rec0.LastInstanceType =
        some (env.instances (ev.instanceId.getD "")).instanceType ∧
      rec0.LastKeyPair =
        some (env.instances (ev.instanceId.getD "")).keyName := by
  unfold create_snapshots
  rw [hstate]
  have hlen : ((env.instances (ev.instanceId.getD "")).volumes.length == 0)
      = false := by
    simp [List.length_eq_zero, hvols]
  have hpr :
      (get_project_tag (env.instances (ev.instanceId.getD "")).tags == "")
      = false := by
    simp [hproj]
  simp only [hid, hpr, hlen, Bool.not_true, bne_self_eq_false, if_false,
    Bool.false_eq_true, preservedUsername]
  exact ⟨_, rfl, rfl, rfl, rfl, rfl, rfl, rfl, rfl, rfl, rfl, rfl, rfl⟩

/-- C9: the project record written by create_snapshots carries the
preserved Username, and every other attribute is taken from the current
instance (VolumeCount from the attached volume list, Status always
SNAPSHOTTING). -/
theorem c9_username_preserved (ev : ShutdownDetail) (env : CsEnv)
    (main : List MainItem) (meta : List MetaItem)
    (hstate : ev.state = some "shutting-down")
    (hid : optTruthy ev.instanceId = true)
    (hproj :
      get_project_tag (env.instances (ev.instanceId.getD "")).tags ≠ "")
    (hvols : (env.instances (ev.instanceId.getD "")).volumes ≠ []) :
    ∃ rec0,
      (create_snapshots ev env main meta).actions.head? =
          some (Action.putMain rec0) ∧
      (create_snapshots ev env main meta).main = mainPut main rec0 ∧
      rec0.project =
        get_project_tag (env.instances (ev.instanceId.getD "")).tags ∧
      rec0.Username = some (preservedUsername env main
        (get_project_tag (env.instances (ev.instanceId.getD "")).tags)) ∧
      rec0.VolumeCount =
        some (env.instances (ev.instanceId.getD "")).volumes.length ∧
      rec0.Status = some "SNAPSHOTTING" ∧
      rec0.AMI = some (env.instances (ev.instanceId.getD "")).imageId ∧
      rec0.RootDeviceName =
        some (env.instances (ev.instanceId.getD "")).rootDeviceName ∧
      rec0.Architecture =
        some (env.instances (ev.instanceId.getD "")).architecture ∧
      rec0.VirtualizationType =
        some (env.instances (ev.instanceId.getD "")).virtualizationType ∧
      rec0.LastInstanceType =
        some (env.instances (ev.instanceId.getD "")).instanceType ∧
      rec0.LastKeyPair =
        some (env.instances (ev.instanceId.getD "")).keyName :=
  create_snapshots_put_spec ev env main meta hstate hid hproj hvols

/-- Prior main record fixture for the c9 witness: Username alice was set
externally. -/
def c9Prior : MainItem :=
  { project := "proj-c3", Status := some "READY",
    Username := some "alice" }

/-- Witness for c9_username_preserved: the overwritten record keeps the
externally-set Username alice while the rest is refreshed from the
instance. -/
theorem c9_username_preserved_witness :
    ∃ rec0,
      (create_snapshots
          { instanceId := some "i-c3", state := some "shutting-down" }
          c3Env [c9Prior] []).actions.head? =
          some (Action.putMain rec0) ∧
      (create_snapshots
          { instanceId := some "i-c3", state := some "shutting-down" }
          c3Env [c9Prior] []).main = mainPut [c9Prior] rec0 ∧
      rec0.project = get_project_tag (c3Env.instances "i-c3").tags ∧
      rec0.Username = some (preservedUsername c3Env [c9Prior]
        (get_project_tag (c3Env.instances "i-c3").tags)) ∧
      rec0.VolumeCount = some (c3Env.instances "i-c3").volumes.length ∧
      rec0.Status = some "SNAPSHOTTING" ∧
      rec0.AMI = some (c3Env.instances "i-c3").imageId ∧
      rec0.RootDeviceName = some (c3Env.instances "i-c3").rootDeviceName ∧
      rec0.Architecture = some (c3Env.instances "i-c3").architecture ∧
      rec0.VirtualizationType =
        some (c3Env.instances "i-c3").virtualizationType ∧
      rec0.LastInstanceType = some (c3Env.instances "i-c3").instanceType ∧
      rec0.LastKeyPair = some (c3Env.instances "i-c3").keyName :=
  c9_username_preserved
    { instanceId := some "i-c3", state := some "shutting-down" }
    c3Env [c9Prior] [] rfl (by decide) (by decide) (by decide)

/-- C3 amended: the AMI attribute is not absent before the first IMAGING
completion; create_snapshots itself writes it, set to the image id the
instance is currently running from, and a later successful registration in
create_image overwrites it with the new AMI id. -/
theorem c3_amended (ev : ShutdownDetail) (env : CsEnv)
    (main : List MainItem) (meta : List MetaItem)
    (hstate : ev.state = some "shutting-down")
    (hid : optTruthy ev.instanceId = true)
    (hproj :
      get_project_tag (env.instances (ev.instanceId.getD "")).tags ≠ "")
    (hvols : (env.instances (ev.instanceId.getD "")).volumes ≠ []) :
    ∃ rec0,
      (create_snapshots ev env main meta).actions.head? =
          some (Action.putMain rec0) ∧
      rec0.AMI = some (env.instances (ev.instanceId.getD "")).imageId ∧
      rec0.Status = some "SNAPSHOTTING" := by
  obtain ⟨rec0, h1, _, _, _, _, h6, h7, _⟩ :=
    create_snapshots_put_spec ev env main meta hstate hid hproj hvols
  exact ⟨rec0, h1, h7, h6⟩

/-- Witness for c3_amended at the concrete c3 fixture. -/
theorem c3_amended_witness :
    ∃ rec0,
      (create_snapshots
          { instanceId := some "i-c3", state := some "shutting-down" }
          c3Env [] []).actions.head? = some (Action.putMain rec0) ∧
      rec0.AMI = some (c3Env.instances "i-c3").imageId ∧
      rec0.Status = some "SNAPSHOTTING" :=
  c3_amended { instanceId := some "i-c3", state := some "shutting-down" }
    c3Env [] [] rfl (by decide) (by decide) (by decide)

/-- The register_image arguments create_image assembles once every volume
is done, given the resolved (possibly backfilled) virtualization type and
architecture. -/
def assembledArgs (env : CiEnv) (cfg : SnapshotConfig) (m : MainItem)
    (project : String) (first : MetaItem) (restAll : List MetaItem)
    (virt arch : Option String) : RegisterImageArgs :=
  { Name := project ++ "-ami",
    BlockDeviceMappings := (first :: restAll).map (make_mapping env),
    RootDeviceName :=
      (((first :: restAll).find?
        (fun x => some x.deviceName == m.RootDeviceName)).getD first).deviceName,
    TagSpecs := [("Project", project), ("ManagedBy", cfg.managed_by_tag)],
    VirtualizationType := if optTruthy virt then virt else none,
    Architecture := if optTruthy arch then arch else none }

/-- Shared helper: under the hypotheses that pin the all-volumes-done
path, create_image reduces to the outcome of its prior-AMI block followed
by registration. -/
theorem create_image_full_path (ev : SnapshotDetail) (env : CiEnv)
    (main : List MainItem) (meta : List MetaItem) (cfg : SnapshotConfig)
    (r : MetaItem) (m : MainItem) (required : Nat)
    (first : MetaItem) (restAll : List MetaItem)
    (hres : ev.result = some "succeeded")
    (harn : optTruthy ev.snapshotId = true)
    (hq : metaQueryBySnapshot meta (snapIdOf ev) = [r])
    (hm : mainGet main r.project = some m)
    (hvc : m.VolumeCount = some required)
    (hall : metaQueryByProject
        (metaUpdateState meta r.project r.volumeId "COMPLETED") r.project
        = first :: restAll)
    (hdone : required ≤ ((first :: restAll).filter
        (fun x => x.State == "COMPLETED")).length) :
    create_image ev env main meta cfg =
      match oldAmiStep env cfg m.AMI m.VirtualizationType m.Architecture with
      | .abort =>
        ⟨[Action.updateMetaState r.project r.volumeId "COMPLETED"], main,
         metaUpdateState meta r.project r.volumeId "COMPLETED", none⟩
      | .failed cActs e =>
        ⟨Action.updateMetaState r.project r.volumeId "COMPLETED" :: cActs,
         main, metaUpdateState meta r.project r.volumeId "COMPLETED", some e⟩
      | .proceed cActs virt arch =>
        ⟨Action.updateMetaState r.project r.volumeId "COMPLETED" ::
          (cActs ++
            [Action.registerImage
              (assembledArgs env cfg m r.project first restAll virt arch),
             Action.updateMainAmiStatus r.project env.newAmiId "IMAGING"]),
         mainUpdateAmiStatus main r.project env.newAmiId "IMAGING",
         metaUpdateState meta r.project r.volumeId "COMPLETED", none⟩ := by
  have hnlt : ¬ (((metaQueryByProject
      (metaUpdateState meta r.project r.volumeId "COMPLETED")
      r.project).filter (fun x => x.State == "COMPLETED")).length
      < required) := by
    rw [hall]; omega
  unfold create_image
  rw [hres]
  simp only [harn, hq, hm, hvc, hall, hnlt]
  cases hstep : oldAmiStep env cfg m.AMI m.VirtualizationType
      m.Architecture with
  | abort => simp [hstep, hall]
  | failed cActs e =>
    simp [hstep, hall]
    exact hdone
  | proceed cActs virt arch =>
    simp [hstep, hall, assembledArgs]
    exact hdone

/-- Helper: the prior-AMI block is skipped entirely when the record holds
no truthy AMI value. -/
theorem oldAmiStep_skip (env : CiEnv) (cfg : SnapshotConfig)
    (oldAmi : Option String) (virt arch : Option String)
    (hAmi : optTruthy oldAmi = false) :
    oldAmiStep env cfg oldAmi virt arch = .proceed [] virt arch := by
  unfold oldAmiStep
  simp [hAmi]

/-- Helper: the prior-AMI block when the describe call returns at least
one image. -/
theorem oldAmiStep_found (env : CiEnv) (cfg : SnapshotConfig)
    (a : String) (virt arch : Option String) (img : ImageDesc)
    (imgs : List ImageDesc) (ha : a ≠ "")
    (hdesc : env.describeImages a = .ok (img :: imgs)) :
    oldAmiStep env cfg (some a) virt arch =
      (if lookupTag img.Tags "ManagedBy" == some cfg.managed_by_tag then
        (match (cleanup_ami_and_snapshots a env.cleanupEnv cfg).2 with
         | some e => OldAmiStep.failed
             (Action.cleanupAmi a ::
               (cleanup_ami_and_snapshots a env.cleanupEnv cfg).1) e
         | none => OldAmiStep.proceed
             (Action.cleanupAmi a ::
               (cleanup_ami_and_snapshots a env.cleanupEnv cfg).1)
             (if optTruthy virt then virt else img.VirtualizationType)
             (if optTruthy arch then arch else img.Architecture))
       else OldAmiStep.proceed []
         (if optTruthy virt then virt else img.VirtualizationType)
         (if optTruthy arch then arch else img.Architecture)) := by
  unfold oldAmiStep
  simp [optTruthy, ha, hdesc]

/-- Helper: every action cleanup_ami_and_snapshots records is the
deregistration or a snapshot deletion. -/
theorem mem_cleanup_actions {amiId : String} {env : CleanupEnv}
    {cfg : SnapshotConfig} {a : Action}
    (ha : a ∈ (cleanup_ami_and_snapshots amiId env cfg).1) :
    a = Action.deregisterImage amiId ∨ ∃ s, a = Action.deleteSnapshot s := by
  unfold cleanup_ami_and_snapshots at ha
  simp only [List.mem_cons, List.mem_map] at ha
  rcases ha with h | ⟨s, _, h⟩
  · exact Or.inl h
  · exact Or.inr ⟨s, h.symm⟩

/-- C5: on the all-volumes-done path with a prior AMI that still exists,
create_image runs cleanup_ami_and_snapshots on it exactly when its
ManagedBy tag equals the configured tag; when the tag differs, the prior
AMI is not deregistered and registration of the replacement proceeds
without error. -/
theorem c5_old_ami_cleanup_gating (ev : SnapshotDetail) (env : CiEnv)
    (main : List MainItem) (meta : List MetaItem) (cfg : SnapshotConfig)
    (r : MetaItem) (m : MainItem) (required : Nat)
    (first : MetaItem) (restAll : List MetaItem)
    (a : String) (img : ImageDesc) (imgs : List ImageDesc)
    (hres : ev.result = some "succeeded")
    (harn : optTruthy ev.snapshotId = true)
    (hq : metaQueryBySnapshot meta (snapIdOf ev) = [r])
    (hm : mainGet main r.project = some m)
    (hvc : m.VolumeCount = some required)
    (hall : metaQueryByProject
        (metaUpdateState meta r.project r.volumeId "COMPLETED") r.project
        = first :: restAll)
    (hdone : required ≤ ((first :: restAll).filter
        (fun x => x.State == "COMPLETED")).length)
    (hAmi : m.AMI = some a)
    (ha : a ≠ "")
    (hdesc : env.describeImages a = .ok (img :: imgs)) :
    (Action.cleanupAmi a ∈ (create_image ev env main meta cfg).actions ↔
      lookupTag img.Tags "ManagedBy" = some cfg.managed_by_tag) ∧
    (lookupTag img.Tags "ManagedBy" ≠ some cfg.managed_by_tag →
      Action.deregisterImage a ∉ (create_image ev env main meta cfg).actions ∧
      (∃ args, Action.registerImage args ∈
        (create_image ev env main meta cfg).actions) ∧
      (create_image ev env main meta cfg).err = none) := by
  have hred := create_image_full_path ev env main meta cfg r m required
    first restAll hres harn hq hm hvc hall hdone
  rw [hAmi] at hred
  rw [oldAmiStep_found env cfg a m.VirtualizationType m.Architecture img
    imgs ha hdesc] at hred
  by_cases htag : lookupTag img.Tags "ManagedBy" = some cfg.managed_by_tag
  · rw [if_pos (by simp [htag])] at hred
    cases hcl : (cleanup_ami_and_snapshots a env.cleanupEnv cfg).2 with
    | none =>
      rw [hcl] at hred
      rw [hred]
      simp [htag]
    | some e =>
      rw [hcl] at hred
      rw [hred]
      simp [htag]
  · rw [if_neg (by simp [htag])] at hred
    rw [hred]
    constructor
    · simp [htag]
    · intro _
      refine ⟨by simp, ⟨assembledArgs env cfg m r.project first restAll
        (if optTruthy m.VirtualizationType then m.VirtualizationType
          else img.VirtualizationType)
        (if optTruthy m.Architecture then m.Architecture
          else img.Architecture), by simp⟩, rfl⟩

/-- Witness for c5_old_ami_cleanup_gating at the concrete c4 fixture,
whose prior AMI carries no ManagedBy tag. -/
theorem c5_old_ami_cleanup_gating_witness :
    (Action.cleanupAmi "ami-old4" ∈
        (create_image c4Ev c4Env [c4Main] [c4Meta] {}).actions ↔
      lookupTag c4Img.Tags "ManagedBy" =
        some ({} : SnapshotConfig).managed_by_tag) ∧
    (lookupTag c4Img.Tags "ManagedBy" ≠
        some ({} : SnapshotConfig).managed_by_tag →
      Action.deregisterImage "ami-old4" ∉
        (create_image c4Ev c4Env [c4Main] [c4Meta] {}).actions ∧
      (∃ args, Action.registerImage args ∈
        (create_image c4Ev c4Env [c4Main] [c4Meta] {}).actions) ∧
      (create_image c4Ev c4Env [c4Main] [c4Meta] {}).err = none) :=
  c5_old_ami_cleanup_gating c4Ev c4Env [c4Main] [c4Meta] {}
    c4Meta c4Main 1 { c4Meta with State := "COMPLETED" } []
    "ami-old4" c4Img []
    rfl (by decide) (by decide) (by decide) rfl (by decide) (by decide)
    rfl (by decide) rfl

/-- Helper: resolving an attribute through the truthiness-guarded
backfill and then the truthiness-guarded inclusion. -/
theorem truthy_backfill (x y : Option String) :
    (if optTruthy (if optTruthy x then x else y)
      then (if optTruthy x then x else y) else none)
    = (if optTruthy x then x
        else if optTruthy y then y else none) := by
  by_cases hx : optTruthy x <;> simp [hx]

/-- C4 amended: the Architecture and VirtualizationType arguments of the
register_image call are the project record values when those are truthy;
when a value is missing from the record and a truthy prior AMI exists
whose describe succeeds, the value is backfilled from the prior AMI
description; the argument is omitted only when it is still missing after
that (in particular always when no prior AMI exists). -/
theorem c4_amended (ev : SnapshotDetail) (env : CiEnv)
    (main : List MainItem) (meta : List MetaItem) (cfg : SnapshotConfig)
    (r : MetaItem) (m : MainItem) (required : Nat)
    (first : MetaItem) (restAll : List MetaItem)
    (hres : ev.result = some "succeeded")
    (harn : optTruthy ev.snapshotId = true)
    (hq : metaQueryBySnapshot meta (snapIdOf ev) = [r])
    (hm : mainGet main r.project = some m)
    (hvc : m.VolumeCount = some required)
    (hall : metaQueryByProject
        (metaUpdateState meta r.project r.volumeId "COMPLETED") r.project
        = first :: restAll)
    (hdone : required ≤ ((first :: restAll).filter
        (fun x => x.State == "COMPLETED")).length) :
    ((optTruthy m.AMI = false) →
      ∀ args, Action.registerImage args ∈
          (create_image ev env main meta cfg).actions →
        args.Architecture =
          (if optTruthy m.Architecture then m.Architecture else none) ∧
        args.VirtualizationType =
          (if optTruthy m.VirtualizationType then m.VirtualizationType
            else none)) ∧
    (∀ a img imgs, m.AMI = some a → a ≠ "" →
      env.describeImages a = .ok (img :: imgs) →
      ∀ args, Action.registerImage args ∈
          (create_image ev env main meta cfg).actions →
        args.Architecture =
          (if optTruthy m.Architecture then m.Architecture
            else if optTruthy img.Architecture then img.Architecture
            else none) ∧
        args.VirtualizationType =
          (if optTruthy m.VirtualizationType then m.VirtualizationType
            else if optTruthy img.VirtualizationType
              then img.VirtualizationType else none)) := by
  have hred := create_image_full_path ev env main meta cfg r m required
    first restAll hres harn hq hm hvc hall hdone
  constructor
  · intro hno args hmem
    rw [oldAmiStep_skip env cfg m.AMI _ _ hno] at hred
    rw [hred] at hmem
    simp only [List.nil_append, List.mem_cons, List.mem_singleton,
      List.not_mem_nil] at hmem
    rcases hmem with h | h | h
    · exact absurd h (by simp)
    · have hargs : args = assembledArgs env cfg m r.project first restAll
          m.VirtualizationType m.Architecture := Action.registerImage.inj h
      subst hargs
      exact ⟨rfl, rfl⟩
    · exact absurd h (by simp)
  · intro a img imgs hAmi ha hdesc args hmem
    rw [hAmi] at hred
    rw [oldAmiStep_found env cfg a m.VirtualizationType m.Architecture img
      imgs ha hdesc] at hred
    by_cases htag : lookupTag img.Tags "ManagedBy" = some cfg.managed_by_tag
    · rw [if_pos (by simp [htag])] at hred
      cases hcl : (cleanup_ami_and_snapshots a env.cleanupEnv cfg).2 with
      | none =>
        rw [hcl] at hred
        rw [hred] at hmem
        simp only [List.cons_append, List.mem_cons, List.mem_append,
          List.mem_singleton] at hmem
        rcases hmem with h | h | h | h | h
        · exact absurd h (by simp)
        · exact absurd h (by simp)
        · rcases mem_cleanup_actions h with h2 | ⟨s, h2⟩ <;> simp at h2
        · have hargs : args = assembledArgs env cfg m r.project first restAll
              (if optTruthy m.VirtualizationType then m.VirtualizationType
                else img.VirtualizationType)
              (if optTruthy m.Architecture then m.Architecture
                else img.Architecture) := Action.registerImage.inj h
          subst hargs
          exact ⟨truthy_backfill _ _, truthy_backfill _ _⟩
        · exact absurd h (by simp)
      | some e =>
        rw [hcl] at hred
        rw [hred] at hmem
        simp only [List.mem_cons] at hmem
        rcases hmem with h | h | h
        · exact absurd h (by simp)
        · exact absurd h (by simp)
        · rcases mem_cleanup_actions h with h2 | ⟨s, h2⟩ <;> simp at h2
    · rw [if_neg (by simp [htag])] at hred
      rw [hred] at hmem
      simp only [List.nil_append, List.mem_cons, List.mem_singleton] at hmem
      rcases hmem with h | h | h
      · exact absurd h (by simp)
      · have hargs : args = assembledArgs env cfg m r.project first restAll
            (if optTruthy m.VirtualizationType then m.VirtualizationType
              else img.VirtualizationType)
            (if optTruthy m.Architecture then m.Architecture
              else img.Architecture) := Action.registerImage.inj h
        subst hargs
        exact ⟨truthy_backfill _ _, truthy_backfill _ _⟩
      · exact absurd h (by simp)

/-- Witness for c4_amended at the concrete c4 fixture: both record
attributes are missing and both are backfilled from the prior AMI. -/
theorem c4_amended_witness :
    ((optTruthy c4Main.AMI = false) →
      ∀ args, Action.registerImage args ∈
          (create_image c4Ev c4Env [c4Main] [c4Meta] {}).actions →
        args.Architecture =
          (if optTruthy c4Main.Architecture then c4Main.Architecture
            else none) ∧
        args.VirtualizationType =
          (if optTruthy c4Main.VirtualizationType
            then c4Main.VirtualizationType else none)) ∧
    (∀ a img imgs, c4Main.AMI = some a → a ≠ "" →
      c4Env.describeImages a = .ok (img :: imgs) →
      ∀ args, Action.registerImage args ∈
          (create_image c4Ev c4Env [c4Main] [c4Meta] {}).actions →
        args.Architecture =
          (if optTruthy c4Main.Architecture then c4Main.Architecture
            else if optTruthy img.Architecture then img.Architecture
            else none) ∧
        args.VirtualizationType =
          (if optTruthy c4Main.VirtualizationType
            then c4Main.VirtualizationType
            else if optTruthy img.VirtualizationType
              then img.VirtualizationType else none)) :=
  c4_amended c4Ev c4Env [c4Main] [c4Meta] {}
    c4Meta c4Main 1 { c4Meta with State := "COMPLETED" } []
    rfl (by decide) (by decide) (by decide) rfl (by decide) (by decide)

/-- Helper: a row surviving the meta deletion loop was in the initial
table and matches none of the deleted keys. -/
theorem mem_deleteRows {p : String} :
    ∀ (rows : List MetaItem) (t : List MetaItem) (x : MetaItem),
      x ∈ deleteRows p rows t →
      x ∈ t ∧ ∀ r ∈ rows, ¬(x.project = p ∧ x.volumeId = r.volumeId)
  | [], t, x, hx => ⟨hx, by simp⟩
  | r :: rest, t, x, hx => by
    obtain ⟨hx1, hx2⟩ := mem_deleteRows rest (metaDelete t p r.volumeId) x hx
    have hx3 := List.mem_filter.mp hx1
    refine ⟨hx3.1, ?_⟩
    intro r2 hr2
    rcases List.mem_cons.mp hr2 with h | h
    · subst h
      rintro ⟨hp, hv⟩
      have hpred := hx3.2
      simp [hp, hv] at hpred
    · exact hx2 r2 h

/-- Helper: after mark_ready deletes every meta row of the project, the
per-project query is empty. -/
theorem metaQueryByProject_deleteRows (meta : List MetaItem) (p : String) :
    metaQueryByProject (deleteRows p (metaQueryByProject meta p) meta) p
      = [] := by
  rw [List.eq_nil_iff_forall_not_mem]
  intro x hx
  have hx1 := List.mem_filter.mp hx
  obtain ⟨hmem, hsurv⟩ :=
    mem_deleteRows (metaQueryByProject meta p) meta x hx1.1
  have hxp : x.project = p := by simpa using hx1.2
  have hxrows : x ∈ metaQueryByProject meta p :=
    List.mem_filter.mpr ⟨hmem, by simp [hxp]⟩
  exact hsurv x hxrows ⟨hxp, rfl⟩

/-- Helper: a keyed in-place map commutes with find? by the same key when
the update preserves the key. -/
theorem find?_map_keyed (p : String) (f : MainItem → MainItem)
    (hf : ∀ m, (f m).project = m.project) :
    ∀ t : List MainItem,
      ((t.map (fun m => if m.project == p then f m else m)).find?
          (fun m => m.project == p))
        = (t.find? (fun m => m.project == p)).map f
  | [] => rfl
  | a :: t => by
    by_cases ha : a.project = p
    · have h1 : (if a.project == p then f a else a) = f a := by simp [ha]
      have h2 : ((f a).project == p) = true := by simp [hf, ha]
      have h3 : (a.project == p) = true := by simp [ha]
      rw [List.map_cons, h1]
      simp only [List.find?, h2, h3]
      rfl
    · have h1 : (if a.project == p then f a else a) = a := by simp [ha]
      have h2 : (a.project == p) = false := by simp [ha]
      rw [List.map_cons, h1]
      simp only [List.find?, h2]
      exact find?_map_keyed p f hf t

/-- Helper: the Status update leaves a READY record retrievable whenever
some record of the project exists. -/
theorem mainGet_updateStatus_of_mem (t : List MainItem) (p s : String)
    (x : MainItem) (hx : x ∈ t) (hxp : x.project = p) :
    ∃ m1, mainGet (mainUpdateStatus t p s) p = some m1 ∧
      m1.Status = some s := by
  have hany : t.any (fun m => m.project == p) = true :=
    List.any_eq_true.mpr ⟨x, hx, by simp [hxp]⟩
  unfold mainUpdateStatus mainGet
  rw [if_pos hany]
  rw [find?_map_keyed p (fun m => { m with Status := some s })
    (fun _ => rfl) t]
  have hfind : (t.find? (fun m => m.project == p)).isSome := by
    rw [List.find?_isSome]
    exact ⟨x, hx, by simp [hxp]⟩
  obtain ⟨m0, hm0⟩ := Option.isSome_iff_exists.mp hfind
  rw [hm0]
  exact ⟨_, rfl, rfl⟩

/-- Helper: the scan by AMI commutes with the Status update, which does
not touch the AMI attribute. -/
theorem mainScanByAmi_updateStatus (t : List MainItem) (p s ami : String) :
    mainScanByAmi (mainUpdateStatus t p s) ami
      = (mainScanByAmi t ami).map
          (fun m =>
            if m.project == p then { m with Status := some s } else m) := by
  unfold mainUpdateStatus mainScanByAmi
  by_cases hany : t.any (fun m => m.project == p) = true
  · rw [if_pos hany]
    rw [List.filter_map]
    congr 1
    apply List.filter_congr
    intro m _
    by_cases hmp : m.project = p <;> simp [hmp]
  · rw [if_neg hany]
    rw [List.filter_append]
    have hnone : ∀ m ∈ t, (m.project == p) = false := by
      intro m hm
      by_contra hc
      exact hany (List.any_eq_true.mpr
        ⟨m, hm, eq_true_of_ne_false hc⟩)
    have h1 : List.filter (fun m => m.AMI == some ami)
        ([{ project := p, Status := some s }] : List MainItem) = [] := by
      simp
    rw [h1, List.append_nil]
    have h2 : ∀ m ∈ t.filter (fun m => m.AMI == some ami),
        (if m.project == p then { m with Status := some s } else m) = m := by
      intro m hm
      rw [hnone m (List.mem_filter.mp hm).1]
      simp
    rw [List.map_congr_left h2, List.map_id']

/-- C8: when an AMI-available event matches a project, invoking
mark_ready leaves that project READY with no error and clears its meta
rows, and invoking it a second time on the resulting state again
completes without error and leaves the project READY, even though the
meta rows are already gone. -/
theorem c8_mark_ready_idempotent (ev : AmiDetail)
    (main : List MainItem) (meta : List MetaItem) (item : MainItem)
    (rest : List MainItem)
    (hstate : ev.State = some "available")
    (hami : optTruthy ev.ImageId = true)
    (hscan : mainScanByAmi main (ev.ImageId.getD "") = item :: rest) :
    (mark_ready ev main meta).err = none ∧
    (∃ m1, mainGet (mark_ready ev main meta).main item.project = some m1 ∧
      m1.Status = some "READY") ∧
    metaQueryByProject (mark_ready ev main meta).meta item.project = [] ∧
    (mark_ready ev (mark_ready ev main meta).main
        (mark_ready ev main meta).meta).err = none ∧
    (∃ m2, mainGet (mark_ready ev (mark_ready ev main meta).main
        (mark_ready ev main meta).meta).main item.project = some m2 ∧
      m2.Status = some "READY") := by
  have hmem : item ∈ main := by
    have h0 : item ∈ mainScanByAmi main (ev.ImageId.getD "") := by
      rw [hscan]; exact List.mem_cons_self item rest
    exact (List.mem_filter.mp h0).1
  have hres1 : mark_ready ev main meta =
      ⟨(metaQueryByProject meta item.project).map
          (fun r => Action.deleteMeta item.project r.volumeId) ++
        [Action.updateMainStatus item.project "READY"],
       mainUpdateStatus main item.project "READY",
       deleteRows item.project (metaQueryByProject meta item.project) meta,
       none⟩ := by
    unfold mark_ready
    rw [hstate]
    simp only [hami, hscan]
    simp
  have hscan2 : mainScanByAmi
      (mainUpdateStatus main item.project "READY") (ev.ImageId.getD "")
      = ({ item with Status := some "READY" }) ::
        rest.map (fun m => if m.project == item.project
          then { m with Status := some "READY" } else m) := by
    rw [mainScanByAmi_updateStatus, hscan]
    simp
  have hmem2 : ({ item with Status := some "READY" } : MainItem) ∈
      mainUpdateStatus main item.project "READY" := by
    have hany : main.any (fun m => m.project == item.project) = true :=
      List.any_eq_true.mpr ⟨item, hmem, by simp⟩
    unfold mainUpdateStatus
    rw [if_pos hany]
    exact List.mem_map.mpr ⟨item, hmem, by simp⟩
  have hres2 : mark_ready ev (mainUpdateStatus main item.project "READY")
      (deleteRows item.project (metaQueryByProject meta item.project) meta)
      = ⟨(metaQueryByProject
            (deleteRows item.project (metaQueryByProject meta item.project)
              meta) item.project).map
          (fun r => Action.deleteMeta item.project r.volumeId) ++
        [Action.updateMainStatus item.project "READY"],
       mainUpdateStatus (mainUpdateStatus main item.project "READY")
         item.project "READY",
       deleteRows item.project
         (metaQueryByProject
           (deleteRows item.project (metaQueryByProject meta item.project)
             meta) item.project)
         (deleteRows item.project (metaQueryByProject meta item.project)
           meta),
       none⟩ := by
    unfold mark_ready
    rw [hstate]
    simp only [hami, hscan2]
    simp
  refine ⟨by rw [hres1], ?_, ?_, ?_, ?_⟩
  · rw [hres1]
    exact mainGet_updateStatus_of_mem main item.project "READY" item hmem rfl
  · rw [hres1]
    exact metaQueryByProject_deleteRows meta item.project
  · rw [hres1]
    rw [hres2]
  · rw [hres1]
    rw [hres2]
    exact mainGet_updateStatus_of_mem _ item.project "READY"
      ({ item with Status := some "READY" }) hmem2 rfl

/-- Witness for c8_mark_ready_idempotent at a concrete IMAGING project
with one meta row. -/
theorem c8_mark_ready_idempotent_witness :
    (mark_ready { ImageId := some "ami-r", State := some "available" }
        [{ project := "p8", AMI := some "ami-r",
           Status := some "IMAGING" }]
        [{ project := "p8", volumeId := "v8", State := "COMPLETED" }]).err
      = none ∧
    (∃ m1, mainGet (mark_ready
        { ImageId := some "ami-r", State := some "available" }
        [{ project := "p8", AMI := some "ami-r", Status := some "IMAGING" }]
        [{ project := "p8", volumeId := "v8",
           State := "COMPLETED" }]).main "p8" = some m1 ∧
      m1.Status = some "READY") ∧
    metaQueryByProject (mark_ready
        { ImageId := some "ami-r", State := some "available" }
        [{ project := "p8", AMI := some "ami-r", Status := some "IMAGING" }]
        [{ project := "p8", volumeId := "v8",
           State := "COMPLETED" }]).meta "p8" = [] ∧
    (mark_ready { ImageId := some "ami-r", State := some "available" }
        (mark_ready { ImageId := some "ami-r", State := some "available" }
          [{ project := "p8", AMI := some "ami-r",
             Status := some "IMAGING" }]
          [{ project := "p8", volumeId := "v8",
             State := "COMPLETED" }]).main
        (mark_ready { ImageId := some "ami-r", State := some "available" }
          [{ project := "p8", AMI := some "ami-r",
             Status := some "IMAGING" }]
          [{ project := "p8", volumeId := "v8",
             State := "COMPLETED" }]).meta).err = none ∧
    (∃ m2, mainGet (mark_ready
        { ImageId := some "ami-r", State := some "available" }
        (mark_ready { ImageId := some "ami-r", State := some "available" }
          [{ project := "p8", AMI := some "ami-r",
             Status := some "IMAGING" }]
          [{ project := "p8", volumeId := "v8",
             State := "COMPLETED" }]).main
        (mark_ready { ImageId := some "ami-r", State := some "available" }
          [{ project := "p8", AMI := some "ami-r",
             Status := some "IMAGING" }]
          [{ project := "p8", volumeId := "v8",
             State := "COMPLETED" }]).meta).main "p8" = some m2 ∧
      m2.Status = some "READY") :=
  c8_mark_ready_idempotent
    { ImageId := some "ami-r", State := some "available" }
    [{ project := "p8", AMI := some "ami-r", Status := some "IMAGING" }]
    [{ project := "p8", volumeId := "v8", State := "COMPLETED" }]
    { project := "p8", AMI := some "ami-r", Status := some "IMAGING" } []
    rfl (by decide) (by decide)

/-- Volume ids of the create-snapshot calls in an action list, in
order. -/
def createdVolIds (acts : List Action) : List String :=
  acts.filterMap (fun a =>
    match a with
    | Action.createSnapshot v _ _ => some v
    | _ => none)

/-- Snapshot ids of the tagging calls in an action list, in order. -/
def taggedSnapIds (acts : List Action) : List String :=
  acts.filterMap (fun a =>
    match a with
    | Action.tagSnapshot s _ => some s
    | _ => none)

/-- Volume ids of the meta-row writes in an action list, in order. -/
def metaPutVolIds (acts : List Action) : List String :=
  acts.filterMap (fun a =>
    match a with
    | Action.putMeta row => some row.volumeId
    | _ => none)

/-- Helper: one-step unfolding of the snapshot loop on a cons cell. -/
theorem snapLoop_cons (p iid : String) (vol : VolumeInfo)
    (rest : List VolumeInfo) (acc : List Action) (meta : List MetaItem) :
    snapLoop p iid (vol :: rest) acc meta =
      (match vol.attachments.find? (fun a => a.InstanceId == some iid) with
       | none =>
         (acc ++
           [Action.createSnapshot vol.id vol.newSnapId
              (p ++ "-" ++ vol.id),
            Action.tagSnapshot vol.newSnapId
              [("Project", p), ("VolumeID", vol.id)]],
          meta,
          some (Err.valueError ("Volume " ++ vol.id
            ++ " missing attachment for instance " ++ iid)))
       | some att =>
         snapLoop p iid rest
           ((acc ++
             [Action.createSnapshot vol.id vol.newSnapId
                (p ++ "-" ++ vol.id),
              Action.tagSnapshot vol.newSnapId
                [("Project", p), ("VolumeID", vol.id)]]) ++
             [Action.putMeta
               { project := p, volumeId := vol.id, instanceId := iid,
                 deviceName := att.Device, snapshotId := vol.newSnapId,
                 State := "PENDING" }])
           (metaPut meta
             { project := p, volumeId := vol.id, instanceId := iid,
               deviceName := att.Device, snapshotId := vol.newSnapId,
               State := "PENDING" })) := rfl

/-- Helper: when the volume list is a block of volumes with valid
attachments followed by one whose attachment for this instance is
missing, the snapshot loop raises at that volume, after having created
and tagged a snapshot for it and for every earlier volume, and written
meta rows for the earlier volumes only. -/
theorem snapLoop_stops_at_missing (p iid : String) (bad : VolumeInfo)
    (after : List VolumeInfo)
    (hBad : bad.attachments.find?
      (fun a => a.InstanceId == some iid) = none) :
    ∀ (good : List VolumeInfo) (acc : List Action) (meta : List MetaItem),
      (∀ v ∈ good, (v.attachments.find?
        (fun a => a.InstanceId == some iid)).isSome = true) →
      (snapLoop p iid (good ++ bad :: after) acc meta).2.2
          = some (Err.valueError ("Volume " ++ bad.id
            ++ " missing attachment for instance " ++ iid)) ∧
      createdVolIds (snapLoop p iid (good ++ bad :: after) acc meta).1
          = createdVolIds acc ++ good.map (fun v => v.id) ++ [bad.id] ∧
      taggedSnapIds (snapLoop p iid (good ++ bad :: after) acc meta).1
          = taggedSnapIds acc ++ good.map (fun v => v.newSnapId)
            ++ [bad.newSnapId] ∧
      metaPutVolIds (snapLoop p iid (good ++ bad :: after) acc meta).1
          = metaPutVolIds acc ++ good.map (fun v => v.id)
  | [], acc, meta, _ => by
    rw [List.nil_append, snapLoop_cons]
    simp only [hBad]
    refine ⟨trivial, ?_, ?_, ?_⟩ <;>
      simp [createdVolIds, taggedSnapIds, metaPutVolIds,
        List.filterMap_append]
  | v :: good, acc, meta, hGood => by
    have hvs := hGood v (List.mem_cons_self v good)
    obtain ⟨att, hatt⟩ := Option.isSome_iff_exists.mp hvs
    have ih := snapLoop_stops_at_missing p iid bad after hBad good
      ((acc ++
        [Action.createSnapshot v.id v.newSnapId (p ++ "-" ++ v.id),
         Action.tagSnapshot v.newSnapId
           [("Project", p), ("VolumeID", v.id)]]) ++
        [Action.putMeta
          { project := p, volumeId := v.id, instanceId := iid,
            deviceName := att.Device, snapshotId := v.newSnapId,
            State := "PENDING" }])
      (metaPut meta
        { project := p, volumeId := v.id, instanceId := iid,
          deviceName := att.Device, snapshotId := v.newSnapId,
          State := "PENDING" })
      (fun v2 hv2 => hGood v2 (List.mem_cons_of_mem v hv2))
    obtain ⟨ihe, ihc, iht, ihm⟩ := ih
    rw [List.cons_append, snapLoop_cons]
    simp only [hatt]
    refine ⟨ihe, ?_, ?_, ?_⟩
    · rw [ihc]
      simp [createdVolIds, List.filterMap_append, List.append_assoc]
    · rw [iht]
      simp [taggedSnapIds, List.filterMap_append, List.append_assoc]
    · rw [ihm]
      simp [metaPutVolIds, List.filterMap_append, List.append_assoc]

/-- C10: the missing-attachment fatal error in create_snapshots is not
atomic: at the time it is raised, the project record was already
overwritten with Status SNAPSHOTTING, a snapshot was already created and
tagged for the faulting volume and for every volume processed before it,
and meta rows were written for the earlier volumes but not for the
faulting one. -/
theorem c10_partial_effects (ev : ShutdownDetail) (env : CsEnv)
    (main : List MainItem) (meta : List MetaItem)
    (good : List VolumeInfo) (bad : VolumeInfo) (after : List VolumeInfo)
    (hstate : ev.state = some "shutting-down")
    (hid : optTruthy ev.instanceId = true)
    (hproj :
      get_project_tag (env.instances (ev.instanceId.getD "")).tags ≠ "")
    (hvols : (env.instances (ev.instanceId.getD "")).volumes
      = good ++ bad :: after)
    (hGood : ∀ v ∈ good, (v.attachments.find?
      (fun a => a.InstanceId == some (ev.instanceId.getD ""))).isSome
        = true)
    (hBad : bad.attachments.find?
      (fun a => a.InstanceId == some (ev.instanceId.getD "")) = none) :
    (create_snapshots ev env main meta).err
        = some (Err.valueError ("Volume " ++ bad.id
          ++ " missing attachment for instance "
          ++ (ev.instanceId.getD ""))) ∧
    (∃ rec0, (create_snapshots ev env main meta).actions.head?
        = some (Action.putMain rec0) ∧
      rec0.Status = some "SNAPSHOTTING" ∧
      (create_snapshots ev env main meta).main = mainPut main rec0) ∧
    createdVolIds (create_snapshots ev env main meta).actions
        = good.map (fun v => v.id) ++ [bad.id] ∧
    taggedSnapIds (create_snapshots ev env main meta).actions
        = good.map (fun v => v.newSnapId) ++ [bad.newSnapId] ∧
    metaPutVolIds (create_snapshots ev env main meta).actions
        = good.map (fun v => v.id) := by
  have hlen : (((good ++ bad :: after : List VolumeInfo)).length == 0)
      = false := by
    simp
  have hpr :
      (get_project_tag (env.instances (ev.instanceId.getD "")).tags == "")
      = false := by
    simp [hproj]
  obtain ⟨he, hc, ht, hm2⟩ := snapLoop_stops_at_missing
    (get_project_tag (env.instances (ev.instanceId.getD "")).tags)
    (ev.instanceId.getD "") bad after hBad good [] meta hGood
  unfold create_snapshots
  rw [hstate]
  simp only [hid, hpr, hlen, Bool.not_true, bne_self_eq_false, if_false,
    Bool.false_eq_true, hvols]
  refine ⟨he, ⟨_, rfl, rfl, rfl⟩, ?_, ?_, ?_⟩
  · simpa [createdVolIds] using hc
  · simpa [taggedSnapIds] using ht
  · simpa [metaPutVolIds] using hm2

/-- Instance fixture for the c10 witness: the first volume has a valid
attachment, the second has no attachment entry for this instance. -/
def c10Inst : InstanceInfo :=
  { tags := [("Project", "p10")],
    imageId := "ami-10",
    rootDeviceName := "/dev/sda1",
    architecture := "x86_64",
    virtualizationType := "hvm",
    instanceType := "t3.micro",
    keyName := "kp",
    volumes :=
      [{ id := "v1",
         attachments :=
           [{ InstanceId := some "i-10", Device := "/dev/sda1" }],
         newSnapId := "snap-a" },
       { id := "v2", attachments := [], newSnapId := "snap-b" }] }

/-- Environment for the c10 witness. -/
def c10Env : CsEnv := { instances := fun _ => c10Inst }

/-- Witness for c10_partial_effects at the concrete c10 fixture. -/
theorem c10_partial_effects_witness :
    (create_snapshots
        { instanceId := some "i-10", state := some "shutting-down" }
        c10Env [] []).err
      = some (Err.valueError
          ("Volume " ++ "v2" ++ " missing attachment for instance "
            ++ "i-10")) ∧
    (∃ rec0, (create_snapshots
        { instanceId := some "i-10", state := some "shutting-down" }
        c10Env [] []).actions.head? = some (Action.putMain rec0) ∧
      rec0.Status = some "SNAPSHOTTING" ∧
      (create_snapshots
        { instanceId := some "i-10", state := some "shutting-down" }
        c10Env [] []).main = mainPut [] rec0) ∧
    createdVolIds (create_snapshots
        { instanceId := some "i-10", state := some "shutting-down" }
        c10Env [] []).actions = ["v1", "v2"] ∧
    taggedSnapIds (create_snapshots
        { instanceId := some "i-10", state := some "shutting-down" }
        c10Env [] []).actions = ["snap-a", "snap-b"] ∧
    metaPutVolIds (create_snapshots
        { instanceId := some "i-10", state := some "shutting-down" }
        c10Env [] []).actions = ["v1"] :=
  c10_partial_effects
    { instanceId := some "i-10", state := some "shutting-down" }
    c10Env [] []
    [{ id := "v1",
       attachments := [{ InstanceId := some "i-10", Device := "/dev/sda1" }],
       newSnapId := "snap-a" }]
    { id := "v2", attachments := [], newSnapId := "snap-b" } []
    rfl (by decide) (by decide) rfl (by decide) rfl

end Devbox
